import Mathlib

/-!
Verification development for the food-ordering chatbot
(`app.py` and `chat_engine.py`).

The Python sources are shallowly embedded: pure helpers become Lean
functions on `String`/`List Char`; the LLM calls are modelled as
`Except String String` inputs (an `.ok` value is the text the model
returned, an `.error` value is the exception message `str(e)` raised by
the call); exceptions that propagate through Python code are modelled
with `Except PyError`.
-/

namespace FoodOrderingBot

/-- Whitespace as recognised by Python's `str.split()` / `str.strip()` /
the regex class `\s` (restricted to the ASCII whitespace characters,
which are the only ones exercised here). -/
def isPyWs (c : Char) : Bool :=
  c == ' ' || c == '\t' || c == '\n' || c == '\r' || c == '\x0b' || c == '\x0c'

/-- ASCII letter, as matched by `a-zA-Z` in the cleaning regex. -/
def isAsciiLetter (c : Char) : Bool :=
  decide (97 ≤ c.toNat ∧ c.toNat ≤ 122) || decide (65 ≤ c.toNat ∧ c.toNat ≤ 90)

/-- ASCII digit, as matched by `0-9` in the cleaning regex. -/
def isDigitChar (c : Char) : Bool :=
  decide (48 ≤ c.toNat ∧ c.toNat ≤ 57)

/-- The punctuation kept by the character class of
`re.sub(r'[^a-zA-Z0-9\s.,!?$:()\-\+\*\\/\\\\]', '', ...)` in
`app.py::clean_response_text`. -/
def allowedPunct : List Char :=
  ['.', ',', '!', '?', '$', ':', '(', ')', '-', '+', '*', '\\', '/']

/-- A character survives the removal regex of `clean_response_text`
iff it is a letter, a digit, whitespace, or one of the allowed
punctuation characters. -/
def allowedChar (c : Char) : Bool :=
  isAsciiLetter c || isDigitChar c || isPyWs c || allowedPunct.contains c

/-- Python `text.split()`: split on runs of whitespace, dropping empty
pieces.  The accumulator holds the current word reversed. -/
def pySplitGo : List Char → List Char → List (List Char)
  | [], acc => if acc.isEmpty then [] else [acc.reverse]
  | c :: rest, acc =>
      if isPyWs c then
        if acc.isEmpty then pySplitGo rest [] else acc.reverse :: pySplitGo rest []
      else
        pySplitGo rest (c :: acc)

/-- `' '.join(words)` on the character level. -/
def joinWithSpace : List (List Char) → List Char
  | [] => []
  | [w] => w
  | w :: ws => w ++ (' ' :: joinWithSpace ws)

/-- Python `s.strip()` on a character list (ASCII whitespace). -/
def pyStripL (l : List Char) : List Char :=
  ((l.dropWhile isPyWs).reverse.dropWhile isPyWs).reverse

/-- Python `s.strip()`. -/
def pyStrip (s : String) : String :=
  String.mk (pyStripL s.data)

/-- Lookbehind `(?<!\s)` of `re.sub(r'(?<!\s)(\*\*)', r' \1', ...)`:
at the start of the string (no previous character) it succeeds. -/
def prevNotWs : Option Char → Bool
  | none => true
  | some c => !isPyWs c

/-- `re.sub(r'(?<!\s)(\*\*)', r' \1', text)`: left-to-right
non-overlapping scan; a `**` whose preceding character is not
whitespace gets a space inserted before it. `prev` is the character
just before the current scan position in the original string. -/
def spaceBeforeBold : Option Char → List Char → List Char
  | _, [] => []
  | _, [c1] => [c1]
  | prev, c1 :: c2 :: rest =>
      if c1 == '*' && c2 == '*' && prevNotWs prev then
        ' ' :: '*' :: '*' :: spaceBeforeBold (some '*') rest
      else
        c1 :: spaceBeforeBold (some c1) (c2 :: rest)

/-- `re.sub(r'(\*\*)(?!\s)', r'\1 ', text)`: a `**` not followed by a
whitespace character (end of string included) gets a space appended. -/
def spaceAfterBold : List Char → List Char
  | [] => []
  | [c1] => [c1]
  | [c1, c2] =>
      if c1 == '*' && c2 == '*' then ['*', '*', ' '] else c1 :: spaceAfterBold [c2]
  | c1 :: c2 :: c3 :: rest =>
      if c1 == '*' && c2 == '*' then
        if isPyWs c3 then c1 :: spaceAfterBold (c2 :: c3 :: rest)
        else '*' :: '*' :: ' ' :: spaceAfterBold (c3 :: rest)
      else c1 :: spaceAfterBold (c2 :: c3 :: rest)

/-- `app.py::clean_response_text` on string input: collapse whitespace
runs to single spaces, strip characters outside the allow-list, space
out `**` markers, and trim.  (The non-string branch `str(text)` is not
modelled: every call site passes a string.) -/
def clean_response_text (text : String) : String :=
  let collapsed := joinWithSpace (pySplitGo text.data [])
  let filtered := collapsed.filter allowedChar
  let bolded := spaceAfterBold (spaceBeforeBold none filtered)
  String.mk (pyStripL bolded)

/-! ## JSON values and `json.loads` -/

/-- A parsed JSON value, as produced by Python's `json.loads`.  A
number is kept as mantissa and decimal exponent (value `m * 10 ^ e`):
the embedded code never observes a number's value except through
Python truthiness, i.e. whether the mantissa is zero. -/
inductive Json where
  | null
  | bool (b : Bool)
  | num (m : Int) (e : Int)
  | str (s : String)
  | arr (elems : List Json)
  | obj (fields : List (String × Json))

/-- Python truthiness of a JSON-decoded value (`if value:`). -/
def pyTruthy : Json → Bool
  | Json.null => false
  | Json.bool b => b
  | Json.num m _ => decide (m ≠ 0)
  | Json.str s => !s.isEmpty
  | Json.arr l => !l.isEmpty
  | Json.obj l => !l.isEmpty

/-- `data[k]` / `data.get(k)` on a decoded object.  The parser keeps
duplicate keys in order of appearance, so the lookup takes the last
occurrence, matching Python's dict construction where a later duplicate
key overwrites an earlier one. -/
def jsonGet (fields : List (String × Json)) (k : String) : Option Json :=
  (fields.reverse.find? (fun kv => kv.1 == k)).map (fun kv => kv.2)

/-- `k in data` on a decoded object. -/
def jsonHasKey (fields : List (String × Json)) (k : String) : Bool :=
  fields.any (fun kv => kv.1 == k)

/-- JSON insignificant whitespace. -/
def skipWs (s : List Char) : List Char :=
  s.dropWhile (fun c => c == ' ' || c == '\t' || c == '\n' || c == '\r')

/-- Value of a hexadecimal digit in a `\uXXXX` escape. -/
def hexVal (c : Char) : Option Nat :=
  if isDigitChar c then some (c.toNat - 48)
  else if decide (97 ≤ c.toNat ∧ c.toNat ≤ 102) then some (c.toNat - 87)
  else if decide (65 ≤ c.toNat ∧ c.toNat ≤ 70) then some (c.toNat - 55)
  else none

/-- Single-character JSON string escapes. -/
def escChar : Char → Option Char
  | '"' => some '"'
  | '\\' => some '\\'
  | '/' => some '/'
  | 'b' => some '\x08'
  | 'f' => some '\x0c'
  | 'n' => some '\n'
  | 'r' => some '\r'
  | 't' => some '\t'
  | _ => none

/-- Body of a JSON string, after the opening quote: returns the decoded
characters and the rest of the input after the closing quote.  Strict
mode: unescaped control characters are rejected, like `json.loads`. -/
def parseJStrBody : List Char → Option (List Char × List Char)
  | [] => none
  | '"' :: rest => some ([], rest)
  | '\\' :: 'u' :: h1 :: h2 :: h3 :: h4 :: rest =>
      (match hexVal h1, hexVal h2, hexVal h3, hexVal h4 with
       | some a, some b, some c, some d =>
           (parseJStrBody rest).map
             (fun pr => (Char.ofNat (((a * 16 + b) * 16 + c) * 16 + d) :: pr.1, pr.2))
       | _, _, _, _ => none)
  | '\\' :: e :: rest =>
      (match escChar e with
       | some c => (parseJStrBody rest).map (fun pr => (c :: pr.1, pr.2))
       | none => none)
  | c :: rest =>
      if decide (c.toNat < 32) then none
      else (parseJStrBody rest).map (fun pr => (c :: pr.1, pr.2))

/-- Digits to a natural number. -/
def digitsToNat (ds : List Char) : Nat :=
  ds.foldl (fun a c => a * 10 + (c.toNat - 48)) 0

/-- Fraction part of a JSON number: `([], s)` when there is no `.`,
otherwise the digits after the `.` (at least one required). -/
def parseFrac : List Char → Option (List Char × List Char)
  | '.' :: r =>
      let ds := r.takeWhile isDigitChar
      if ds.isEmpty then none else some (ds, r.dropWhile isDigitChar)
  | s => some ([], s)

/-- Exponent part of a JSON number: `(0, s)` when there is no `e`/`E`. -/
def parseExp : List Char → Option (Int × List Char)
  | [] => some (0, [])
  | c :: r =>
      if c == 'e' || c == 'E' then
        let (esign, r2) : Int × List Char :=
          match r with
          | '+' :: rr => (1, rr)
          | '-' :: rr => (-1, rr)
          | _ => (1, r)
        let ds := r2.takeWhile isDigitChar
        if ds.isEmpty then none
        else some (esign * (digitsToNat ds : Int), r2.dropWhile isDigitChar)
      else some (0, c :: r)

/-- A JSON number per RFC 8259's grammar (a leading `0` is not followed
by further integer digits). -/
def parseNumber (s : List Char) : Option (Json × List Char) :=
  let (neg, s1) : Bool × List Char :=
    match s with
    | '-' :: r => (true, r)
    | _ => (false, s)
  match s1 with
  | [] => none
  | c :: _ =>
    if isDigitChar c then
      let intDs := if c == '0' then ['0'] else s1.takeWhile isDigitChar
      let s2 := if c == '0' then s1.drop 1 else s1.dropWhile isDigitChar
      match parseFrac s2 with
      | none => none
      | some (fracDs, s3) =>
        match parseExp s3 with
        | none => none
        | some (e, s4) =>
          let mant : Int := (digitsToNat (intDs ++ fracDs) : Int)
          let signedMant : Int := if neg then -mant else mant
          some (Json.num signedMant (e - (fracDs.length : Int)), s4)
    else none

mutual

/-- One JSON value; `fuel` bounds the recursion depth.  The
non-standard literals `NaN`, `Infinity` and `-Infinity` accepted by
`json.loads` are represented by non-zero sentinel rationals: the
embedded code never observes a number's value, only its Python
truthiness, which the sentinels preserve. -/
def parseValue : Nat → List Char → Option (Json × List Char)
  | 0, _ => none
  | fuel + 1, s =>
    match skipWs s with
    | [] => none
    | '{' :: rest => parseObjBody fuel rest
    | '[' :: rest => parseArrBody fuel rest
    | '"' :: rest => (parseJStrBody rest).map (fun pr => (Json.str (String.mk pr.1), pr.2))
    | 't' :: 'r' :: 'u' :: 'e' :: rest => some (Json.bool true, rest)
    | 'f' :: 'a' :: 'l' :: 's' :: 'e' :: rest => some (Json.bool false, rest)
    | 'n' :: 'u' :: 'l' :: 'l' :: rest => some (Json.null, rest)
    | 'N' :: 'a' :: 'N' :: rest => some (Json.num 1 0, rest)
    | 'I' :: 'n' :: 'f' :: 'i' :: 'n' :: 'i' :: 't' :: 'y' :: rest => some (Json.num 1 0, rest)
    | '-' :: 'I' :: 'n' :: 'f' :: 'i' :: 'n' :: 'i' :: 't' :: 'y' :: rest => some (Json.num (-1) 0, rest)
    | s2 => parseNumber s2

/-- Object body after the opening `{`. -/
def parseObjBody : Nat → List Char → Option (Json × List Char)
  | 0, _ => none
  | fuel + 1, s =>
    match skipWs s with
    | '}' :: rest => some (Json.obj [], rest)
    | s2 => parseMembers fuel s2 []

/-- One or more `"key": value` members followed by `}`. -/
def parseMembers : Nat → List Char → List (String × Json) → Option (Json × List Char)
  | 0, _, _ => none
  | fuel + 1, s, acc =>
    match skipWs s with
    | '"' :: rest =>
      (match parseJStrBody rest with
       | none => none
       | some (keyChars, rest2) =>
         match skipWs rest2 with
         | ':' :: rest3 =>
           (match parseValue fuel rest3 with
            | none => none
            | some (v, rest4) =>
              let acc2 := acc ++ [(String.mk keyChars, v)]
              match skipWs rest4 with
              | ',' :: rest5 => parseMembers fuel rest5 acc2
              | '}' :: rest5 => some (Json.obj acc2, rest5)
              | _ => none)
         | _ => none)
    | _ => none

/-- Array body after the opening `[`. -/
def parseArrBody : Nat → List Char → Option (Json × List Char)
  | 0, _ => none
  | fuel + 1, s =>
    match skipWs s with
    | ']' :: rest => some (Json.arr [], rest)
    | s2 => parseElems fuel s2 []

/-- One or more array elements followed by `]`. -/
def parseElems : Nat → List Char → List Json → Option (Json × List Char)
  | 0, _, _ => none
  | fuel + 1, s, acc =>
    match parseValue fuel s with
    | none => none
    | some (v, rest) =>
      match skipWs rest with
      | ',' :: rest2 => parseElems fuel rest2 (acc ++ [v])
      | ']' :: rest2 => some (Json.arr (acc ++ [v]), rest2)
      | _ => none

end

/-- `json.loads`: parse the whole string as a single JSON value,
allowing surrounding whitespace; `none` models `JSONDecodeError`. -/
def parseJson (s : String) : Option Json :=
  match parseValue (4 * s.length + 16) s.data with
  | some (j, rest) => if (skipWs rest).isEmpty then some j else none
  | none => none

/-! ## The cart-extraction scan of `_handle_order_query` -/

/-- Items of the regex `\{(?:[^{}]|(?:\{[^{}]*\}))*\}` after the opening
`{`: repeatedly consume either a non-brace character or a one-level
nested `{...}` block, then require the closing `}`.  Returns the
consumed characters (closing brace included) and the rest.  A greedy
match attempt that never reaches a closing `}` fails — exactly the
backtracking behaviour of the Python pattern, where no backtrack
position can satisfy the final `\}`. -/
def matchItems : Nat → List Char → Option (List Char × List Char)
  | 0, _ => none
  | fuel + 1, s =>
    match s with
    | [] => none
    | '}' :: rest => some (['}'], rest)
    | '{' :: rest =>
        (match rest.span (fun c => c != '{' && c != '}') with
         | (inner, '}' :: rest3) =>
             (matchItems fuel rest3).map
               (fun pr => ('{' :: (inner ++ '}' :: pr.1), pr.2))
         | _ => none)
    | c :: rest => (matchItems fuel rest).map (fun pr => (c :: pr.1, pr.2))

/-- `re.findall(r'(\{(?:[^{}]|(?:\{[^{}]*\}))*\})', text, re.DOTALL)`:
scan left to right; at each `{` attempt a match, on success continue
after it, on failure continue at the next character. -/
def findCandidatesGo : Nat → List Char → List String
  | 0, _ => []
  | fuel + 1, s =>
    match s with
    | [] => []
    | '{' :: rest =>
        (match matchItems (rest.length + 1) rest with
         | some (body, r) => String.mk ('{' :: body) :: findCandidatesGo fuel r
         | none => findCandidatesGo fuel rest)
    | _ :: rest => findCandidatesGo fuel rest

/-- All balanced-brace candidate substrings of a model reply. -/
def findCandidates (s : String) : List String :=
  findCandidatesGo s.length s.data

/-! ## Events, errors and the LLM interface

An LLM call is an `Except String String` input: `.ok text` is the text
the model returned, `.error e` the message of the exception the call
raised. -/

/-- Python exceptions escaping an embedded function. -/
inductive PyError where
  | llmFailure (msg : String)
  | attributeError
  | validationError
deriving DecidableEq

/-- `chat_engine.ResponseEvent`. -/
structure ResponseEvent where
  response : String
  action_type : String
  original_query : Option String := none
  cart_items : Option (List Json) := none

/-- `chat_engine.ChatResponseStopEvent` (the `result` field, always
`None`, is omitted). -/
structure ChatResponseStopEvent where
  response : String
  action_type : String
  cart_items : Option (List Json) := none

/-- `classify_and_respond` returns either a pending `ResponseEvent`
(menu/order) or a terminal `ChatResponseStopEvent`. -/
inductive StageOneResult where
  | pending (ev : ResponseEvent)
  | stop (ev : ChatResponseStopEvent)

/-- The action kind carried by a first-stage result. -/
def stageOneAction : StageOneResult → String
  | StageOneResult.pending ev => ev.action_type
  | StageOneResult.stop ev => ev.action_type

/-- The cart carried by a first-stage result. -/
def stageOneCart : StageOneResult → Option (List Json)
  | StageOneResult.pending ev => ev.cart_items
  | StageOneResult.stop ev => ev.cart_items

/-- `needle` occurs as a contiguous sublist of `hay`. -/
def listContainsSub (needle : List Char) : List Char → Bool
  | [] => needle.isEmpty
  | c :: rest => needle.isPrefixOf (c :: rest) || listContainsSub needle rest

/-- Python's substring test `needle in hay`. -/
def strContains (hay needle : String) : Bool :=
  listContainsSub needle.data hay.data

/-- ASCII lowering of one character (`A`-`Z` only), the fragment of
Python's `str.lower()` exercised by the embedded code. -/
def toLowerChar (c : Char) : Char :=
  if decide (65 ≤ c.toNat ∧ c.toNat ≤ 90) then Char.ofNat (c.toNat + 32) else c

/-- Python `s.lower()` (ASCII fragment). -/
def pyLower (s : String) : String :=
  String.mk (s.data.map toLowerChar)

/-- Python truthiness of `ev.original_query` (`None` and `""` are
falsy). -/
def strOptTruthy : Option String → Bool
  | none => false
  | some s => !s.isEmpty

/-! ## Response generators (`_handle_menu_query`, `_handle_order_query`,
`_handle_end_conversation`) -/

/-- `_handle_menu_query`: returns the model text, or on an exception
from the model call an apology with `str(e)` appended. -/
def handleMenuQuery : Except String String → String
  | Except.ok content => content
  | Except.error e => "I\x27m sorry, I had trouble providing menu information. Error: " ++ e

/-- `_handle_end_conversation`: same error shape as the menu handler. -/
def handleEndConversation : Except String String → String
  | Except.ok content => content
  | Except.error e => "I\x27m sorry, I had trouble saying goodbye. Error: " ++ e

/-- The loop of `_handle_order_query` over the regex matches: the first
candidate that parses to a dict containing `"response"` wins; its
`"cart"` is adopted when it is a list.  `none` when no candidate
qualifies (parse failures are skipped, non-dicts and dicts without
`"response"` do not break the loop). -/
def extractFromMatches : List String → Option (Json × List Json)
  | [] => none
  | m :: rest =>
    match parseJson m with
    | some (Json.obj fields) =>
        if jsonHasKey fields "response" then
          some ((jsonGet fields "response").getD (Json.str ""),
                match jsonGet fields "cart" with
                | some (Json.arr items) => items
                | _ => [])
        else extractFromMatches rest
    | _ => extractFromMatches rest

/-- `_handle_order_query`: on success, scan the reply for an embedded
JSON object; `cart_items` starts as `[]` and is returned unchanged when
no candidate qualifies.  The extracted `"response"` value may be any
JSON value, hence the `Json` first component.  On a model-call
exception: apology text with `str(e)` appended, and an empty cart. -/
def handleOrderQuery : Except String String → Json × List Json
  | Except.error e =>
      (Json.str ("I\x27m sorry, I had trouble with your order. Error: " ++ e), [])
  | Except.ok content =>
      match extractFromMatches (findCandidates content) with
      | some (resp, cart) => (resp, cart)
      | none => (Json.str content, [])

/-! ## Intent classification (`classify_and_respond`, lines 139-208) -/

/-- The `valid_intents` list. -/
def validIntents : List String :=
  ["menu", "order", "greeting", "end", "irrelevant", "history"]

/-- Keyword-based fallback when `json.loads` fails on the router
response: returns `(intent, direct_response)`, both initialised to
`""`. -/
def keywordFallback (responseText : String) : String × String :=
  let raw := pyLower responseText
  if strContains raw "menu" then ("menu", "")
  else if strContains raw "order" || strContains raw "cart" || strContains raw "checkout" then
    ("order", "")
  else if ["hello", "hi ", " how are"].any (fun g => strContains raw g) then
    ("greeting", "Hello! How can I help you with the menu or your order today?")
  else if ["bye", "thank you", "thanks"].any (fun f => strContains raw f) then
    ("end", "")
  else
    ("irrelevant",
     "I\x27m sorry, I had trouble understanding that. I can only assist with menu questions and food orders.")

/-- Intent-specific fallback response used by the repair block for
GREETING / HISTORY / IRRELEVANT (the trailing `else` is the irrelevant
message). -/
def fallbackResponseFor (intent : String) : String :=
  if intent == "greeting" then "Hello! How can I help with the menu or your order?"
  else if intent == "history" then
    "I can see you\x27re asking about our previous conversation. How can I help you with our menu or placing an order?"
  else
    "I\x27m sorry, I can only assist with questions about our menu and help you place an order."

/-- The degenerate fragments the classifier's repair block rejects. -/
def classifierFragments : List String :=
  ["\x7b", "\x7d", "[]", "[", "]", "\x7b\x7d", ":", "\x22\x22", "\x27\x27", ",", "."]

/-- The GREETING/IRRELEVANT/HISTORY response repair (lines 158-176):
non-strings and blank strings get the intent-specific fallback, as do
degenerate fragments. -/
def repairDirect (intent : String) (dr : Json) : Json :=
  if intent == "greeting" || intent == "irrelevant" || intent == "history" then
    match dr with
    | Json.str s =>
        if (pyStrip s).isEmpty then Json.str (fallbackResponseFor intent)
        else if classifierFragments.contains (pyStrip s) then Json.str (fallbackResponseFor intent)
        else Json.str s
    | _ => Json.str (fallbackResponseFor intent)
  else dr

/-- `response_data.get("intent", "").lower() if
response_data.get("intent") else ""`: a truthy non-string intent value
raises `AttributeError` from `.lower()`. -/
def extractIntent0 (intentVal : Json) : Except PyError String :=
  if pyTruthy intentVal then
    match intentVal with
    | Json.str s => Except.ok (pyLower s)
    | _ => Except.error PyError.attributeError
  else Except.ok ""

/-- The validation and repair applied to an extracted intent and the
fields of the decoded dict (lines 146-176): default an invalid or
missing intent to `"irrelevant"` with a canned apology when no
response was supplied, then repair the direct response. -/
def repairWithIntent0 (fields : List (String × Json)) (intent0 : String) : String × Json :=
  let dr0 : Json :=
    if pyTruthy ((jsonGet fields "response").getD Json.null) then
      (jsonGet fields "response").getD Json.null
    else Json.str ""
  if intent0 == "" || !(validIntents.contains intent0) then
    ("irrelevant",
     repairDirect "irrelevant"
       (if pyTruthy dr0 then dr0
        else Json.str "I\x27m sorry, I encountered an issue. I can only assist with menu questions and food orders."))
  else (intent0, repairDirect intent0 dr0)

/-- The successfully-parsed-JSON path (lines 143-182): extract the
intent (the `AttributeError` is not caught by the
`except json.JSONDecodeError` clause and escapes), then validate and
repair. -/
def repairFromJson (j : Json) : Except PyError (String × Json) :=
  match j with
  | Json.obj fields =>
    (match extractIntent0 ((jsonGet fields "intent").getD Json.null) with
     | Except.error e => Except.error e
     | Except.ok intent0 => Except.ok (repairWithIntent0 fields intent0))
  | _ =>
    Except.ok ("irrelevant",
      Json.str "I\x27m sorry, I encountered an issue processing the response. I can only assist with menu questions and food orders.")

/-- Parse-and-repair (lines 139-208): `json.loads` then the dict path,
or the keyword fallback on `JSONDecodeError`. -/
def parseAndRepair (responseText : String) : Except PyError (String × Json) :=
  match parseJson responseText with
  | some j => repairFromJson j
  | none =>
      Except.ok ((keywordFallback responseText).1, Json.str (keywordFallback responseText).2)

/-! ## The dispatch block of `classify_and_respond` (lines 212-302) -/

/-- Order acknowledgment (lines 229-233): modification keywords get a
different phrasing. -/
def ackOrderResponse (query : String) : String :=
  if ["change", "modify", "add", "remove", "update"].any
       (fun kw => strContains (pyLower query) kw) then
    "Give us a moment while we get that order modification ready for you."
  else
    "Give us a moment while we get that order ready for you."

/-- The response of the `except` block at lines 295-302. -/
def classifyErrorResponse : String :=
  "I\x27m sorry, I encountered an error and cannot process your request. I can only assist with menu questions and food orders."

/-- The terminal event of the unexpected-intent `else` branch
(lines 281-290). -/
def unexpectedIntentStop : StageOneResult :=
  StageOneResult.stop
    { response := "I\x27m sorry, I\x27m not sure how to handle that. I can assist with menu questions and orders.",
      action_type := "error", cart_items := none }

/-- The `if intent == ...` dispatch.  For GREETING/HISTORY/IRRELEVANT a
non-string `direct_response` would fail pydantic validation of the
`response: str` field; the resulting exception is caught by the
`except` at line 295, producing the error stop event (this branch is
unreachable after `repairDirect`, see `C10`). -/
def dispatchIntent (query intent : String) (dr : Json) (endLlm : Except String String) :
    StageOneResult :=
  if intent == "menu" then
    StageOneResult.pending
      { response := "Give us a moment while we research that for you.",
        action_type := "menu_inquiry_pending", original_query := some query, cart_items := none }
  else if intent == "order" then
    StageOneResult.pending
      { response := ackOrderResponse query,
        action_type := "order_action_pending", original_query := some query, cart_items := none }
  else if intent == "greeting" then
    (match dr with
     | Json.str s => StageOneResult.stop { response := s, action_type := "greeting", cart_items := none }
     | _ => StageOneResult.stop { response := classifyErrorResponse, action_type := "error", cart_items := none })
  else if intent == "end" then
    StageOneResult.stop
      { response := handleEndConversation endLlm, action_type := "end_conversation", cart_items := none }
  else if intent == "history" then
    (match dr with
     | Json.str s => StageOneResult.stop { response := s, action_type := "history_query", cart_items := none }
     | _ => StageOneResult.stop { response := classifyErrorResponse, action_type := "error", cart_items := none })
  else if intent == "irrelevant" then
    (match dr with
     | Json.str s => StageOneResult.stop { response := s, action_type := "irrelevant_query", cart_items := none }
     | _ => StageOneResult.stop { response := classifyErrorResponse, action_type := "error", cart_items := none })
  else
    unexpectedIntentStop

/-- The whole `classify_and_respond` step.  The router model call
happens before any `try`, so its exception escapes the step; so does
the `AttributeError` of the parse block (only `json.JSONDecodeError`
is caught there). -/
def classifyAndRespond (query : String) (routerLlm endLlm : Except String String) :
    Except PyError StageOneResult :=
  match routerLlm with
  | Except.error e => Except.error (PyError.llmFailure e)
  | Except.ok text =>
      match parseAndRepair (pyStrip text) with
      | Except.error pe => Except.error pe
      | Except.ok (intent, dr) => Except.ok (dispatchIntent query intent dr endLlm)

/-! ## `generate_detailed_response` and `finalize` -/

/-- `generate_detailed_response`: resolve a pending action through the
matching handler; pass every other event through with `cart_items`
reset to `None`.  In the order branch a non-string extracted
`"response"` fails pydantic validation of `ResponseEvent.response`,
raising out of the step. -/
def generateDetailedResponse (ev : ResponseEvent) (menuLlm orderLlm : Except String String) :
    Except PyError ResponseEvent :=
  if ev.action_type == "menu_inquiry_pending" then
    if strOptTruthy ev.original_query then
      Except.ok { response := handleMenuQuery menuLlm, action_type := "menu_inquiry",
                  original_query := none, cart_items := none }
    else
      Except.ok { response := "Error: Missing query for menu info.", action_type := "error",
                  original_query := none, cart_items := none }
  else if ev.action_type == "order_action_pending" then
    if strOptTruthy ev.original_query then
      match handleOrderQuery orderLlm with
      | (Json.str s, cart) =>
          Except.ok { response := s, action_type := "order_action",
                      original_query := none, cart_items := some cart }
      | (_, _) => Except.error PyError.validationError
    else
      Except.ok { response := "Error: Missing query for order action.", action_type := "error",
                  original_query := none, cart_items := none }
  else
    Except.ok { response := ev.response, action_type := ev.action_type,
                original_query := ev.original_query, cart_items := none }

/-- `finalize`: convert the `ResponseEvent` into the stop event. -/
def finalizeStep (ev : ResponseEvent) : ChatResponseStopEvent :=
  { response := ev.response, action_type := ev.action_type, cart_items := ev.cart_items }

/-- One workflow run: classification, then (for pending events) the
detail step and `finalize`.  A terminal stop event from step one ends
the run directly. -/
def runWorkflow (query : String) (routerLlm endLlm menuLlm orderLlm : Except String String) :
    Except PyError ChatResponseStopEvent :=
  match classifyAndRespond query routerLlm endLlm with
  | Except.error pe => Except.error pe
  | Except.ok (StageOneResult.stop ev) => Except.ok ev
  | Except.ok (StageOneResult.pending ev) =>
      match generateDetailedResponse ev menuLlm orderLlm with
      | Except.error pe => Except.error pe
      | Except.ok ev2 => Except.ok (finalizeStep ev2)

/-! ## `app.py` -/

/-- The fallback response of `process_message` when `workflow.run`
raises. -/
def workflowErrorResponse : String :=
  "I\x27m sorry, I encountered an error while processing your request. Please try again with different wording."

/-- `app.py::process_message`: any exception escaping the workflow run
is converted into a well-formed error stop event. -/
def processMessage (query : String) (routerLlm endLlm menuLlm orderLlm : Except String String) :
    ChatResponseStopEvent :=
  match runWorkflow query routerLlm endLlm menuLlm orderLlm with
  | Except.ok r => r
  | Except.error _ =>
      { response := workflowErrorResponse, action_type := "error", cart_items := none }

/-- The degenerate fragments checked after cleaning
(`['{', '}', '[]', '[', ']', '{}']`). -/
def displayFragments : List String :=
  ["\x7b", "\x7d", "[]", "[", "]", "\x7b\x7d"]

/-- Stage-1 replacement message (lines 167 and 175). -/
def emptyInitialApology : String :=
  "I\x27m sorry, I didn\x27t generate a proper initial response. Please try again."

/-- Stage-2 replacement message (lines 256 and 271). -/
def invalidDetailsApology : String :=
  "I\x27m sorry, I didn\x27t receive valid details."

/-- `handle_chat_submission` stage-1 validation and cleaning
(lines 166-177): blank responses, and cleaned responses that are empty
or a degenerate fragment, are replaced and the action forced to
`"error"`. -/
def stageOneValidateClean (resp action : String) : String × String :=
  if (pyStrip resp).isEmpty then (emptyInitialApology, "error")
  else if (clean_response_text resp).isEmpty
       || displayFragments.contains (pyStrip (clean_response_text resp)) then
    (emptyInitialApology, "error")
  else (clean_response_text resp, action)

/-- `handle_chat_submission` stage-2 cleaning (lines 266-273), given a
string `detailed_response_content` and the `final_action_type` in
force. -/
def stageTwoValidateClean (detailed finalAction : String) : String × String :=
  if (clean_response_text detailed).isEmpty
       || displayFragments.contains (pyStrip (clean_response_text detailed)) then
    (invalidDetailsApology, "error")
  else (clean_response_text detailed, finalAction)

/-- The session-cart update of `handle_chat_submission` (lines 195 and
238): `if cart_items is not None: st.session_state.current_cart =
cart_items`. -/
def updateSessionCart (cartItems : Option (List Json)) (current : List Json) : List Json :=
  match cartItems with
  | none => current
  | some items => items

/-! ## `create_chat_engine` history window -/

/-- Role constants of `llama_index` messages. -/
inductive MessageRole where
  | user
  | assistant
deriving DecidableEq

/-- A formatted `ChatMessage`. -/
structure ChatMessage where
  role : MessageRole
  content : String
deriving DecidableEq

/-- One entry of `st.session_state.messages`. -/
structure SessionMessage where
  role : String
  content : String
deriving DecidableEq

/-- Role conversion of `create_chat_engine`. -/
def toChatMessage (m : SessionMessage) : ChatMessage :=
  { role := if m.role == "user" then MessageRole.user else MessageRole.assistant,
    content := m.content }

/-- `create_chat_engine`'s history preparation: keep only
`chat_history[-20:]` and format each message (an empty history yields
an empty formatted history, as in the `if chat_history:` guard). -/
def formatChatHistory (chat_history : List SessionMessage) : List ChatMessage :=
  (chat_history.drop (chat_history.length - 20)).map toChatMessage

/-- A decoded value is a dict containing the key `"response"` — the
acceptance test of the extraction loop. -/
def isResponseObject : Json → Bool
  | Json.obj fields => jsonHasKey fields "response"
  | _ => false

/-! ## Theorems -/

/-- The extraction loop yields nothing when no candidate parses to an
object with a `"response"` key. -/
theorem extractFromMatches_eq_none (ms : List String)
    (h : ∀ m ∈ ms, ∀ j, parseJson m = some j → isResponseObject j = false) :
    extractFromMatches ms = none := by
  induction ms with
  | nil => rfl
  | cons m rest ih =>
    have hrest : extractFromMatches rest = none :=
      ih (fun m2 hm2 => h m2 (List.mem_cons_of_mem _ hm2))
    unfold extractFromMatches
    cases hp : parseJson m with
    | none => exact hrest
    | some j =>
      have hj := h m (List.mem_cons_self _ _) j hp
      cases j with
      | obj fields =>
        have hk : jsonHasKey fields "response" = false := hj
        simp [hk, hrest]
      | null => exact hrest
      | bool b => exact hrest
      | num mm ee => exact hrest
      | str s2 => exact hrest
      | arr l2 => exact hrest

/-- C2 counterexample: on a model-call failure the menu handler's
return value is not a fixed message — it embeds the exception text
(`"boom"` versus `"kaboom"` give different strings), and the same
happens in the order and farewell handlers. -/
theorem C2_counterexample :
    handleMenuQuery (Except.error "boom")
      = "I\x27m sorry, I had trouble providing menu information. Error: boom" ∧
    handleMenuQuery (Except.error "boom") ≠ handleMenuQuery (Except.error "kaboom") ∧
    handleOrderQuery (Except.error "boom")
      = (Json.str "I\x27m sorry, I had trouble with your order. Error: boom", []) ∧
    handleEndConversation (Except.error "boom")
      = "I\x27m sorry, I had trouble saying goodbye. Error: boom" := by
  refine ⟨rfl, ?_, rfl, rfl⟩
  decide

/-- C2 (amended): on every model-call failure the menu, order and
farewell handlers catch the exception and return an apologetic
message, but that message has the raw exception text `str(e)` appended
after `"Error: "` rather than being a fixed string. -/
theorem C2_handler_error_text (e : String) :
    handleMenuQuery (Except.error e)
      = "I\x27m sorry, I had trouble providing menu information. Error: " ++ e ∧
    handleOrderQuery (Except.error e)
      = (Json.str ("I\x27m sorry, I had trouble with your order. Error: " ++ e), []) ∧
    handleEndConversation (Except.error e)
      = "I\x27m sorry, I had trouble saying goodbye. Error: " ++ e :=
  ⟨rfl, rfl, rfl⟩

/-- C8: the prompt context built by `create_chat_engine` from a
conversation history of any length is exactly the most recent 20
turns — the length-`min n 20` suffix of the history — formatted in
their original order, and the whole history when it has at most 20
turns. -/
theorem C8_history_window (l : List SessionMessage) :
    formatChatHistory l = (l.drop (l.length - 20)).map toChatMessage ∧
    (formatChatHistory l).length = min l.length 20 ∧
    (l.drop (l.length - 20)) <:+ l ∧
    (l.length ≤ 20 → formatChatHistory l = l.map toChatMessage) := by
  refine ⟨rfl, ?_, List.drop_suffix _ _, ?_⟩
  · simp [formatChatHistory]
    omega
  · intro h
    have : l.length - 20 = 0 := by omega
    simp [formatChatHistory, this]

/-- C8 witness: a two-message history is passed through whole, in
order. -/
theorem C8_history_window_witness :
    formatChatHistory
        [{ role := "user", content := "hi" }, { role := "assistant", content := "hello" }]
      = ([{ role := "user", content := "hi" },
          { role := "assistant", content := "hello" }] : List SessionMessage).map toChatMessage :=
  (C8_history_window _).2.2.2 (by decide)

/-- C4: in both display stages of `handle_chat_submission`, a response
whose sanitized form is empty or equal to one of the degenerate
fragments `{`, `}`, `[]`, `[`, `]`, `{}` is replaced by the stage's
canned apology and the action kind is forced to `"error"`. -/
theorem C4_degenerate_replaced (resp action detailed finalAction : String)
    (h1 : clean_response_text resp = ""
            ∨ displayFragments.contains (pyStrip (clean_response_text resp)) = true)
    (h2 : clean_response_text detailed = ""
            ∨ displayFragments.contains (pyStrip (clean_response_text detailed)) = true) :
    stageOneValidateClean resp action = (emptyInitialApology, "error") ∧
    stageTwoValidateClean detailed finalAction = (invalidDetailsApology, "error") := by
  have hC1 : ((clean_response_text resp).isEmpty
      || displayFragments.contains (pyStrip (clean_response_text resp))) = true := by
    rcases h1 with h | h
    · rw [h]; decide
    · rw [h]; rw [Bool.or_true]
  have hC2 : ((clean_response_text detailed).isEmpty
      || displayFragments.contains (pyStrip (clean_response_text detailed))) = true := by
    rcases h2 with h | h
    · rw [h]; decide
    · rw [h]; rw [Bool.or_true]
  constructor
  · unfold stageOneValidateClean
    by_cases hstrip : (pyStrip resp).isEmpty = true
    · rw [if_pos hstrip]
    · rw [if_neg hstrip, if_pos hC1]
  · unfold stageTwoValidateClean
    rw [if_pos hC2]

/-- C4 witness: a pure-control-character response sanitizes to the
empty string and is replaced in both stages, forcing the error kind. -/
theorem C4_degenerate_replaced_witness :
    stageOneValidateClean "\x01" "greeting" = (emptyInitialApology, "error") ∧
    stageTwoValidateClean "\x01" "order_action" = (invalidDetailsApology, "error") :=
  C4_degenerate_replaced "\x01" "greeting" "\x01" "order_action"
    (Or.inl (by decide)) (Or.inl (by decide))

/-- C7: an exception in the router model call escapes
`classify_and_respond` uncaught (the call is outside every `try`), and
`process_message` converts it — and any other exception escaping the
workflow run — into a well-formed stop event with action kind
`"error"` and a fixed apology text. -/
theorem C7_error_propagation (query e : String) (endLlm menuLlm orderLlm : Except String String) :
    classifyAndRespond query (Except.error e) endLlm = Except.error (PyError.llmFailure e) ∧
    processMessage query (Except.error e) endLlm menuLlm orderLlm
      = { response := workflowErrorResponse, action_type := "error", cart_items := none } ∧
    (∀ routerLlm pe, runWorkflow query routerLlm endLlm menuLlm orderLlm = Except.error pe →
        processMessage query routerLlm endLlm menuLlm orderLlm
          = { response := workflowErrorResponse, action_type := "error", cart_items := none }) := by
  refine ⟨rfl, rfl, ?_⟩
  intro routerLlm pe h
  unfold processMessage
  rw [h]

/-- C3: the first-stage action kind matches the transition table
(greeting, history_query, end_conversation, irrelevant_query,
menu_inquiry_pending, order_action_pending, error on failure), and
running the second stage on a pending event yields the final kind
`menu_inquiry` resp. `order_action`. -/
theorem C3_transition_table (query s e : String) (endLlm menuLlm orderLlm : Except String String) :
    stageOneAction (dispatchIntent query "greeting" (Json.str s) endLlm) = "greeting" ∧
    stageOneAction (dispatchIntent query "history" (Json.str s) endLlm) = "history_query" ∧
    stageOneAction (dispatchIntent query "end" (Json.str s) endLlm) = "end_conversation" ∧
    stageOneAction (dispatchIntent query "irrelevant" (Json.str s) endLlm) = "irrelevant_query" ∧
    stageOneAction (dispatchIntent query "menu" (Json.str s) endLlm) = "menu_inquiry_pending" ∧
    stageOneAction (dispatchIntent query "order" (Json.str s) endLlm) = "order_action_pending" ∧
    (processMessage query (Except.error e) endLlm menuLlm orderLlm).action_type = "error" ∧
    (query ≠ "" →
      (∀ ev2, generateDetailedResponse
            { response := "Give us a moment while we research that for you.",
              action_type := "menu_inquiry_pending", original_query := some query,
              cart_items := none } menuLlm orderLlm = Except.ok ev2 →
          ev2.action_type = "menu_inquiry") ∧
      (∀ ev2, generateDetailedResponse
            { response := ackOrderResponse query,
              action_type := "order_action_pending", original_query := some query,
              cart_items := none } menuLlm orderLlm = Except.ok ev2 →
          ev2.action_type = "order_action")) := by
  refine ⟨rfl, rfl, rfl, rfl, rfl, rfl, rfl, ?_⟩
  intro hq
  have hq2 : query.isEmpty = false := by
    rw [Bool.eq_false_iff]
    intro hc
    exact hq ((String.isEmpty_iff query).mp hc)
  constructor
  · intro ev2 h
    unfold generateDetailedResponse at h
    simp [strOptTruthy, hq2] at h
    rw [← h]
  · intro ev2 h
    unfold generateDetailedResponse at h
    simp [strOptTruthy, hq2] at h
    rcases hOQ : handleOrderQuery orderLlm with ⟨resp, cart⟩
    rw [hOQ] at h
    cases resp with
    | str rs => simp at h; rw [← h]
    | null => simp at h
    | bool b => simp at h
    | num m ex => simp at h
    | arr l => simp at h
    | obj f => simp at h

/-- C3 witness: the greeting row of the table at concrete inputs, and
a concrete pending menu event resolved by the second stage to the
final kind `menu_inquiry`. -/
theorem C3_transition_table_witness :
    stageOneAction
        (dispatchIntent "hello" "greeting" (Json.str "Hi there!") (Except.ok "bye"))
      = "greeting" ∧
    ({ response := "We have margherita and pepperoni.", action_type := "menu_inquiry",
       original_query := none, cart_items := none } : ResponseEvent).action_type
      = "menu_inquiry" := by
  constructor
  · exact (C3_transition_table "hello" "Hi there!" "e" (Except.ok "bye")
      (Except.ok "We have margherita and pepperoni.") (Except.ok "done")).1
  · exact ((C3_transition_table "What pizzas do you have?" "x" "e" (Except.ok "bye")
      (Except.ok "We have margherita and pepperoni.") (Except.ok "done")).2.2.2.2.2.2.2
      (by decide)).1 _ rfl

/-- C1 counterexample: an order-handler reply with no JSON candidate at
all yields a cart field that is the *empty list*, not an absent value;
a record carrying it has `cart_items = some []`, and the caller then
overwrites a non-empty session cart with the empty cart. -/
theorem C1_counterexample :
    handleOrderQuery (Except.ok "Added the burger to your cart!")
      = (Json.str "Added the burger to your cart!", []) ∧
    generateDetailedResponse
        { response := "Give us a moment while we get that order ready for you.",
          action_type := "order_action_pending", original_query := some "add a burger",
          cart_items := none }
        (Except.ok "") (Except.ok "Added the burger to your cart!")
      = Except.ok { response := "Added the burger to your cart!", action_type := "order_action",
                    original_query := none, cart_items := some [] } ∧
    ({ response := "Added the burger to your cart!", action_type := "order_action",
       original_query := none, cart_items := some [] } : ResponseEvent).cart_items ≠ none ∧
    updateSessionCart (some []) [Json.str "1 x Burger"] ≠ [Json.str "1 x Burger"] := by
  refine ⟨rfl, rfl, ?_, ?_⟩
  · simp
  · simp [updateSessionCart]

/-- C1 (amended): for every order-handler invocation whose model reply
contains no balanced-brace JSON candidate parsing to an object with a
`"response"` key, the cart of the resulting record is the *empty list*
(`cart_items = some []`), not an absent value, so the caller overwrites
the session cart with the empty cart instead of leaving it unchanged. -/
theorem C1_empty_cart_overwrites (reply q r0 : String) (menuLlm : Except String String)
    (priorCart : List Json) (hq : q ≠ "")
    (h : ∀ m ∈ findCandidates reply, ∀ j, parseJson m = some j → isResponseObject j = false) :
    handleOrderQuery (Except.ok reply) = (Json.str reply, []) ∧
    generateDetailedResponse
        { response := r0, action_type := "order_action_pending",
          original_query := some q, cart_items := none } menuLlm (Except.ok reply)
      = Except.ok { response := reply, action_type := "order_action",
                    original_query := none, cart_items := some [] } ∧
    updateSessionCart (some []) priorCart = [] := by
  have hnone : extractFromMatches (findCandidates reply) = none :=
    extractFromMatches_eq_none _ h
  have hHO : handleOrderQuery (Except.ok reply) = (Json.str reply, []) := by
    simp only [handleOrderQuery]
    rw [hnone]
  have hq2 : q.isEmpty = false := by
    rw [Bool.eq_false_iff]
    intro hc
    exact hq ((String.isEmpty_iff q).mp hc)
  refine ⟨hHO, ?_, rfl⟩
  unfold generateDetailedResponse
  simp [strOptTruthy, hq2, hHO]

/-- C1 witness: a prose-only reply has no candidate, so the handler
returns the empty cart and the caller empties the session cart. -/
theorem C1_empty_cart_overwrites_witness :
    handleOrderQuery (Except.ok "Sure, your burger is coming right up!")
      = (Json.str "Sure, your burger is coming right up!", []) ∧
    updateSessionCart (some []) [Json.str "1 x Burger"] = [] := by
  have hmain := C1_empty_cart_overwrites "Sure, your burger is coming right up!"
    "add a burger" "r" (Except.ok "") [Json.str "1 x Burger"] (by decide)
    (by
      intro m hm
      rw [show findCandidates "Sure, your burger is coming right up!" = ([] : List String)
        from rfl] at hm
      exact absurd hm (List.not_mem_nil m))
  exact ⟨hmain.1, hmain.2.2⟩

/-- Characters of `spaceBeforeBold`'s output: inserted spaces, the
literal `**` replacement characters, or characters of the input. -/
theorem mem_spaceBeforeBold (prev : Option Char) :
    (l : List Char) → ∀ c, c ∈ spaceBeforeBold prev l → c = ' ' ∨ c = '*' ∨ c ∈ l
  | [], c, h => by simp [spaceBeforeBold] at h
  | [c1], c, h => by
      simp only [spaceBeforeBold] at h
      exact Or.inr (Or.inr h)
  | c1 :: c2 :: rest, c, h => by
      rw [spaceBeforeBold] at h
      split at h
      · rcases List.mem_cons.mp h with h | h
        · exact Or.inl h
        rcases List.mem_cons.mp h with h | h
        · exact Or.inr (Or.inl h)
        rcases List.mem_cons.mp h with h | h
        · exact Or.inr (Or.inl h)
        rcases mem_spaceBeforeBold (some '*') rest c h with h2 | h2 | h2
        · exact Or.inl h2
        · exact Or.inr (Or.inl h2)
        · exact Or.inr (Or.inr (List.mem_cons_of_mem _ (List.mem_cons_of_mem _ h2)))
      · rcases List.mem_cons.mp h with h | h
        · exact Or.inr (Or.inr (by rw [h]; exact List.mem_cons_self _ _))
        rcases mem_spaceBeforeBold (some c1) (c2 :: rest) c h with h2 | h2 | h2
        · exact Or.inl h2
        · exact Or.inr (Or.inl h2)
        · exact Or.inr (Or.inr (List.mem_cons_of_mem _ h2))

/-- Characters of `spaceAfterBold`'s output: appended spaces, the
literal `**` replacement characters, or characters of the input. -/
theorem mem_spaceAfterBold :
    (l : List Char) → ∀ c, c ∈ spaceAfterBold l → c = ' ' ∨ c = '*' ∨ c ∈ l
  | [], c, h => by simp [spaceAfterBold] at h
  | [c1], c, h => by
      simp only [spaceAfterBold] at h
      exact Or.inr (Or.inr h)
  | [c1, c2], c, h => by
      rw [spaceAfterBold] at h
      split at h
      · rcases List.mem_cons.mp h with h | h
        · exact Or.inr (Or.inl h)
        rcases List.mem_cons.mp h with h | h
        · exact Or.inr (Or.inl h)
        rcases List.mem_cons.mp h with h | h
        · exact Or.inl h
        · exact absurd h (List.not_mem_nil c)
      · rcases List.mem_cons.mp h with h | h
        · exact Or.inr (Or.inr (by rw [h]; exact List.mem_cons_self _ _))
        rcases mem_spaceAfterBold [c2] c h with h2 | h2 | h2
        · exact Or.inl h2
        · exact Or.inr (Or.inl h2)
        · exact Or.inr (Or.inr (List.mem_cons_of_mem _ h2))
  | c1 :: c2 :: c3 :: rest, c, h => by
      rw [spaceAfterBold] at h
      split at h
      · split at h
        · rcases List.mem_cons.mp h with h | h
          · exact Or.inr (Or.inr (by rw [h]; exact List.mem_cons_self _ _))
          rcases mem_spaceAfterBold (c2 :: c3 :: rest) c h with h2 | h2 | h2
          · exact Or.inl h2
          · exact Or.inr (Or.inl h2)
          · exact Or.inr (Or.inr (List.mem_cons_of_mem _ h2))
        · rcases List.mem_cons.mp h with h | h
          · exact Or.inr (Or.inl h)
          rcases List.mem_cons.mp h with h | h
          · exact Or.inr (Or.inl h)
          rcases List.mem_cons.mp h with h | h
          · exact Or.inl h
          rcases mem_spaceAfterBold (c3 :: rest) c h with h2 | h2 | h2
          · exact Or.inl h2
          · exact Or.inr (Or.inl h2)
          · exact Or.inr (Or.inr (List.mem_cons_of_mem _ (List.mem_cons_of_mem _ h2)))
      · rcases List.mem_cons.mp h with h | h
        · exact Or.inr (Or.inr (by rw [h]; exact List.mem_cons_self _ _))
        rcases mem_spaceAfterBold (c2 :: c3 :: rest) c h with h2 | h2 | h2
        · exact Or.inl h2
        · exact Or.inr (Or.inl h2)
        · exact Or.inr (Or.inr (List.mem_cons_of_mem _ h2))

/-- Stripping only removes characters. -/
theorem mem_pyStripL (l : List Char) (c : Char) (h : c ∈ pyStripL l) : c ∈ l := by
  unfold pyStripL at h
  have h1 := List.mem_reverse.mp h
  have h2 := (List.dropWhile_sublist _).mem h1
  have h3 := List.mem_reverse.mp h2
  exact (List.dropWhile_sublist _).mem h3

/-- C5 counterexample: the sanitizer is not idempotent.  On
`"a \x01 b"` the whitespace collapse happens before the character
filter, so removing the control character leaves a double space that
only a second application collapses. -/
theorem C5_counterexample :
    clean_response_text (clean_response_text "a \x01 b")
      ≠ clean_response_text "a \x01 b" := by
  decide

/-- C5 (amended): the sanitizer's output contains only characters of
the allow-list (letters, digits, whitespace, and the punctuation set
`. , ! ? $ : ( ) - + * / \`) for every input string, but it is not
idempotent in general: removing a disallowed character that sat
between two spaces leaves a double space. -/
theorem C5_allowlist (s : String) (c : Char) (hc : c ∈ (clean_response_text s).data) :
    allowedChar c = true := by
  have h1 : c ∈ spaceAfterBold (spaceBeforeBold none
      ((joinWithSpace (pySplitGo s.data [])).filter allowedChar)) :=
    mem_pyStripL _ _ hc
  rcases mem_spaceAfterBold _ c h1 with h | h | h
  · rw [h]; decide
  · rw [h]; decide
  · rcases mem_spaceBeforeBold none _ c h with h2 | h2 | h2
    · rw [h2]; decide
    · rw [h2]; decide
    · exact (List.mem_filter.mp h2).2

/-- C5 witness: the concrete output character `o` of sanitizing
`"ok"` is in the allow-list. -/
theorem C5_allowlist_witness :
    ('o' ∈ (clean_response_text "ok").data) ∧ allowedChar 'o' = true :=
  ⟨by decide, C5_allowlist "ok" 'o' (by decide)⟩

/-- C6: when the router output fails JSON parsing, `classify_and_respond`
uses the keyword fallback, which yields MENU on `"menu"`, else ORDER on
`"order"`/`"cart"`/`"checkout"`, else GREETING with a canned response on
a greeting token, else END on a farewell token, else IRRELEVANT with a
canned apology; being a pure function it raises nothing. -/
theorem C6_keyword_fallback (text : String) (hfail : parseJson text = none) :
    parseAndRepair text
      = Except.ok ((keywordFallback text).1, Json.str (keywordFallback text).2) ∧
    (strContains (pyLower text) "menu" = true → keywordFallback text = ("menu", "")) ∧
    (strContains (pyLower text) "menu" = false →
      (strContains (pyLower text) "order" || strContains (pyLower text) "cart"
        || strContains (pyLower text) "checkout") = true →
      keywordFallback text = ("order", "")) ∧
    (strContains (pyLower text) "menu" = false →
      (strContains (pyLower text) "order" || strContains (pyLower text) "cart"
        || strContains (pyLower text) "checkout") = false →
      (["hello", "hi ", " how are"].any (fun g => strContains (pyLower text) g)) = true →
      keywordFallback text
        = ("greeting", "Hello! How can I help you with the menu or your order today?")) ∧
    (strContains (pyLower text) "menu" = false →
      (strContains (pyLower text) "order" || strContains (pyLower text) "cart"
        || strContains (pyLower text) "checkout") = false →
      (["hello", "hi ", " how are"].any (fun g => strContains (pyLower text) g)) = false →
      (["bye", "thank you", "thanks"].any (fun f => strContains (pyLower text) f)) = true →
      keywordFallback text = ("end", "")) ∧
    (strContains (pyLower text) "menu" = false →
      (strContains (pyLower text) "order" || strContains (pyLower text) "cart"
        || strContains (pyLower text) "checkout") = false →
      (["hello", "hi ", " how are"].any (fun g => strContains (pyLower text) g)) = false →
      (["bye", "thank you", "thanks"].any (fun f => strContains (pyLower text) f)) = false →
      keywordFallback text
        = ("irrelevant",
           "I\x27m sorry, I had trouble understanding that. I can only assist with menu questions and food orders.")) := by
  refine ⟨?_, ?_, ?_, ?_, ?_, ?_⟩
  · unfold parseAndRepair
    rw [hfail]
  · intro h1
    unfold keywordFallback
    simp [h1]
  · intro h1 h2
    unfold keywordFallback
    simp [h1, h2]
  · intro h1 h2 h3
    unfold keywordFallback
    simp [h1, h2, h3]
  · intro h1 h2 h3 h4
    unfold keywordFallback
    simp [h1, h2, h3, h4]
  · intro h1 h2 h3 h4
    unfold keywordFallback
    simp [h1, h2, h3, h4]

/-- C6 witness: the unparsable output `"(("` contains no keyword, so
the fallback yields IRRELEVANT with the canned apology, without
raising. -/
theorem C6_keyword_fallback_witness :
    parseAndRepair "(("
      = Except.ok ((keywordFallback "((").1, Json.str (keywordFallback "((").2) ∧
    keywordFallback "(("
      = ("irrelevant",
         "I\x27m sorry, I had trouble understanding that. I can only assist with menu questions and food orders.") :=
  ⟨(C6_keyword_fallback "((" rfl).1,
   (C6_keyword_fallback "((" rfl).2.2.2.2.2 (by decide) (by decide) (by decide) (by decide)⟩

/-- The keyword fallback only emits the five intents it scans for. -/
theorem keywordFallback_intent_valid (text : String) :
    validIntents.contains (keywordFallback text).1 = true := by
  simp only [keywordFallback]
  split_ifs <;> decide

/-- The validated verdict carries one of the six valid intents. -/
theorem repairWithIntent0_valid (fields : List (String × Json)) (intent0 : String) :
    validIntents.contains (repairWithIntent0 fields intent0).1 = true := by
  simp only [repairWithIntent0]
  by_cases hcond : (intent0 == "" || !(validIntents.contains intent0)) = true
  · rw [if_pos hcond]
    show validIntents.contains "irrelevant" = true
    decide
  · rw [if_neg hcond]
    rw [Bool.not_eq_true] at hcond
    rcases Bool.or_eq_false_iff.mp hcond with ⟨_, hc2⟩
    simp at hc2
    show validIntents.contains intent0 = true
    simp [hc2]

/-- When the dict path succeeds, the emitted intent is one of the six
valid intents. -/
theorem repairFromJson_intent_valid (j : Json) (intent : String) (dr : Json)
    (h : repairFromJson j = Except.ok (intent, dr)) :
    validIntents.contains intent = true := by
  cases j with
  | obj fields =>
    simp only [repairFromJson] at h
    cases hE : extractIntent0 ((jsonGet fields "intent").getD Json.null) with
    | error e => rw [hE] at h; exact absurd h (by simp)
    | ok intent0 =>
      rw [hE] at h
      injection h with h2
      have h3 : (repairWithIntent0 fields intent0).1 = intent := by rw [h2]
      rw [← h3]
      exact repairWithIntent0_valid fields intent0
  | null =>
    injection h with h2
    have h3 : "irrelevant" = intent := congrArg Prod.fst h2
    rw [← h3]; decide
  | bool b =>
    injection h with h2
    have h3 : "irrelevant" = intent := congrArg Prod.fst h2
    rw [← h3]; decide
  | num m e =>
    injection h with h2
    have h3 : "irrelevant" = intent := congrArg Prod.fst h2
    rw [← h3]; decide
  | str s =>
    injection h with h2
    have h3 : "irrelevant" = intent := congrArg Prod.fst h2
    rw [← h3]; decide
  | arr l =>
    injection h with h2
    have h3 : "irrelevant" = intent := congrArg Prod.fst h2
    rw [← h3]; decide

/-- C10: every `(intent, direct_response)` pair the parse-and-repair
logic can produce (JSON path and keyword-fallback path alike) carries
one of the six valid intent strings, so the trailing `else` branch of
the dispatch — the unexpected-intent error response — is unreachable. -/
theorem C10_intent_always_valid (text query : String) (endLlm : Except String String)
    (intent : String) (dr : Json)
    (h : parseAndRepair text = Except.ok (intent, dr)) :
    validIntents.contains intent = true ∧
    dispatchIntent query intent dr endLlm ≠ unexpectedIntentStop := by
  have hv : validIntents.contains intent = true := by
    unfold parseAndRepair at h
    cases hp : parseJson text with
    | none =>
      rw [hp] at h
      injection h with h2
      have h3 : (keywordFallback text).1 = intent := congrArg Prod.fst h2
      rw [← h3]
      exact keywordFallback_intent_valid text
    | some j =>
      rw [hp] at h
      exact repairFromJson_intent_valid j intent dr h
  refine ⟨hv, ?_⟩
  have hmem : intent = "menu" ∨ intent = "order" ∨ intent = "greeting" ∨ intent = "end"
      ∨ intent = "irrelevant" ∨ intent = "history" := by
    simpa [validIntents] using hv
  rcases hmem with hi | hi | hi | hi | hi | hi <;> subst hi
  · simp [dispatchIntent, unexpectedIntentStop]
  · simp [dispatchIntent, unexpectedIntentStop]
  · cases dr <;> simp [dispatchIntent, unexpectedIntentStop, classifyErrorResponse]
  · simp [dispatchIntent, unexpectedIntentStop]
  · cases dr <;> simp [dispatchIntent, unexpectedIntentStop, classifyErrorResponse]
  · cases dr <;> simp [dispatchIntent, unexpectedIntentStop, classifyErrorResponse]

/-- C10 witness: a parsed greeting verdict has a valid intent and does
not dispatch to the unexpected-intent branch. -/
theorem C10_intent_always_valid_witness :
    validIntents.contains "greeting" = true ∧
    dispatchIntent "hello" "greeting" (Json.str "Hello!") (Except.ok "bye")
      ≠ unexpectedIntentStop :=
  C10_intent_always_valid "\x7b\"intent\": \"GREETING\", \"response\": \"Hello!\"\x7d"
    "hello" (Except.ok "bye") "greeting" (Json.str "Hello!") rfl

/-- Every first-stage result of the dispatch carries no cart. -/
theorem dispatchIntent_cart_none (query intent : String) (dr : Json)
    (endLlm : Except String String) :
    stageOneCart (dispatchIntent query intent dr endLlm) = none := by
  unfold dispatchIntent unexpectedIntentStop
  split_ifs <;> first | rfl | (cases dr <;> rfl)

/-- A successful detail step that carries a cart is an order action. -/
theorem generateDetailed_cart (ev : ResponseEvent) (menuLlm orderLlm : Except String String)
    (ev2 : ResponseEvent) (h : generateDetailedResponse ev menuLlm orderLlm = Except.ok ev2)
    (hc : ev2.cart_items ≠ none) : ev2.action_type = "order_action" := by
  unfold generateDetailedResponse at h
  split_ifs at h
  · injection h with h2
    exact absurd (by rw [← h2]) hc
  · injection h with h2
    exact absurd (by rw [← h2]) hc
  · rcases hOQ : handleOrderQuery orderLlm with ⟨resp, cart⟩
    rw [hOQ] at h
    cases resp with
    | str s => injection h with h2; rw [← h2]
    | null => exact absurd h (by simp)
    | bool b => exact absurd h (by simp)
    | num m e => exact absurd h (by simp)
    | arr l => exact absurd h (by simp)
    | obj f => exact absurd h (by simp)
  · injection h with h2
    exact absurd (by rw [← h2]) hc
  · injection h with h2
    exact absurd (by rw [← h2]) hc

/-- A successful classification is the dispatch of some repaired
verdict. -/
theorem classifyAndRespond_ok (query : String) (routerLlm endLlm : Except String String)
    (s1 : StageOneResult) (h : classifyAndRespond query routerLlm endLlm = Except.ok s1) :
    ∃ intent dr, dispatchIntent query intent dr endLlm = s1 := by
  unfold classifyAndRespond at h
  cases routerLlm with
  | error e => exact absurd h (by simp)
  | ok text =>
    replace h : (match parseAndRepair (pyStrip text) with
        | Except.error pe => Except.error pe
        | Except.ok (intent, dr) =>
            Except.ok (dispatchIntent query intent dr endLlm)) = Except.ok s1 := h
    cases hPR : parseAndRepair (pyStrip text) with
    | error pe => rw [hPR] at h; exact absurd h (by simp)
    | ok pr =>
      obtain ⟨intent, dr⟩ := pr
      rw [hPR] at h
      injection h with h2
      exact ⟨intent, dr, h2⟩

/-- C9: invariant of every final record produced by `process_message`:
a non-null cart implies action kind `order_action`; every other
action kind carries a null cart. -/
theorem C9_cart_only_order (query : String)
    (routerLlm endLlm menuLlm orderLlm : Except String String)
    (h : (processMessage query routerLlm endLlm menuLlm orderLlm).cart_items ≠ none) :
    (processMessage query routerLlm endLlm menuLlm orderLlm).action_type = "order_action" := by
  unfold processMessage at h ⊢
  cases hRW : runWorkflow query routerLlm endLlm menuLlm orderLlm with
  | error pe =>
    rw [hRW] at h
    simp at h
  | ok r =>
    rw [hRW] at h
    replace h : r.cart_items ≠ none := h
    show r.action_type = "order_action"
    unfold runWorkflow at hRW
    cases hCR : classifyAndRespond query routerLlm endLlm with
    | error pe => rw [hCR] at hRW; exact absurd hRW (by simp)
    | ok s1 =>
      obtain ⟨intent, dr, hD⟩ := classifyAndRespond_ok query routerLlm endLlm s1 hCR
      rw [hCR] at hRW
      cases s1 with
      | stop ev =>
        replace hRW : Except.ok ev = Except.ok r := hRW
        injection hRW with h2
        have hnone := dispatchIntent_cart_none query intent dr endLlm
        rw [hD] at hnone
        rw [h2] at hnone
        exact absurd hnone h
      | pending ev =>
        replace hRW : (match generateDetailedResponse ev menuLlm orderLlm with
            | Except.error pe => Except.error pe
            | Except.ok ev2 => Except.ok (finalizeStep ev2)) = Except.ok r := hRW
        cases hG : generateDetailedResponse ev menuLlm orderLlm with
        | error pe => rw [hG] at hRW; exact absurd hRW (by simp)
        | ok ev2 =>
          rw [hG] at hRW
          injection hRW with h2
          have hc2 : ev2.cart_items ≠ none := by rw [← h2] at h; exact h
          have hact := generateDetailed_cart ev menuLlm orderLlm ev2 hG hc2
          rw [← h2]
          exact hact

/-- C9 witness: a concrete order turn produces a record with a
non-null cart, and its action kind is `order_action`. -/
theorem C9_cart_only_order_witness :
    (processMessage "two burgers please"
        (Except.ok "\x7b\"intent\": \"ORDER\", \"response\": \"\"\x7d")
        (Except.ok "bye") (Except.ok "menu text")
        (Except.ok "Sure! Both burgers are on the way.")).action_type = "order_action" := by
  apply C9_cart_only_order
  rw [show (processMessage "two burgers please"
      (Except.ok "\x7b\"intent\": \"ORDER\", \"response\": \"\"\x7d")
      (Except.ok "bye") (Except.ok "menu text")
      (Except.ok "Sure! Both burgers are on the way.")).cart_items = some [] from rfl]
  exact Option.some_ne_none _

/-- C7 witness: a concrete router failure yields the fixed error stop
event. -/
theorem C7_error_propagation_witness :
    processMessage "hello" (Except.error "APIConnectionError") (Except.ok "bye")
        (Except.ok "menu text") (Except.ok "order text")
      = { response := workflowErrorResponse, action_type := "error", cart_items := none } :=
  (C7_error_propagation "hello" "APIConnectionError" (Except.ok "bye")
      (Except.ok "menu text") (Except.ok "order text")).2.2
    (Except.error "APIConnectionError") (PyError.llmFailure "APIConnectionError") rfl

end FoodOrderingBot
